import Mathlib

/-!
Verification of the JupyterCAD notebook feature-extraction subsystem.

This file is a shallow embedding of the Python sources

  * `jupytercad_lab/notebook/feature_extraction.py` (the feature extractor,
    its filtering, hashing and caching logic), and
  * `jupytercad_lab/notebook/cad_document.py` (the document model and the
    shape-dependency evaluator `_reconstruct_occ_shape`),

followed by theorems about the embedded definitions.  Conventions:

  * Python floats are modelled as real numbers (`ℝ`); `numpy`/`math`
    operations become the corresponding real-number operations.  The rotation
    helper `_rotation_from_axis_angle` is embedded through its explicit
    Rodrigues-matrix branch (the `scipy` branch computes the same rotation).
  * Python dicts representing features are modelled by the structure
    `Feature` whose optional fields are the union of the keys used by the
    extractor; the `metadata` bag is flattened to the `featureLevel` entry,
    the only metadata entry the specification's claims depend on
    (`originalShape`, corner names, indices and similar labels are dropped).
  * The external OpenCASCADE kernel is modelled by the free term algebra
    `OccShape` over exactly the kernel calls `_reconstruct_occ_shape`
    performs, and the external topology traversal of `_extract_from_brep`
    (lines 1435-1772, a loop over OCC iterators) is a parameter
    `occ_analyze` of the service.  The external `json.dumps(..., sort_keys)`
    plus `hashlib.sha256` composite of `_compute_object_hash` is a parameter
    `sha256_json`; the data handed to it is built faithfully from the
    object's shape kind and parameters.
  * Python exceptions raised to the caller are modelled with `Except`.
-/

namespace JupyterCadProof

/-! ## Vectors, matrices and the rotation helpers -/

/-- A 3-vector of reals; models the `[x, y, z]` lists / numpy arrays. -/
structure Vec3 where
  x : ℝ
  y : ℝ
  z : ℝ

def Vec3.add (a b : Vec3) : Vec3 := ⟨a.x + b.x, a.y + b.y, a.z + b.z⟩

def Vec3.neg (a : Vec3) : Vec3 := ⟨-a.x, -a.y, -a.z⟩

/-- Scalar multiplication, modelling `c * v` on numpy arrays. -/
def Vec3.smul (c : ℝ) (a : Vec3) : Vec3 := ⟨c * a.x, c * a.y, c * a.z⟩

def Vec3.dot (a b : Vec3) : ℝ := a.x * b.x + a.y * b.y + a.z * b.z

def Vec3.cross (a b : Vec3) : Vec3 :=
  ⟨a.y * b.z - a.z * b.y, a.z * b.x - a.x * b.z, a.x * b.y - a.y * b.x⟩

/-- `np.linalg.norm`. -/
noncomputable def Vec3.norm (a : Vec3) : ℝ := Real.sqrt (Vec3.dot a a)

/-- A 3x3 matrix given by its rows. -/
structure Mat3 where
  r0 : Vec3
  r1 : Vec3
  r2 : Vec3

def Mat3.identity : Mat3 := ⟨⟨1, 0, 0⟩, ⟨0, 1, 0⟩, ⟨0, 0, 1⟩⟩

def Mat3.addM (a b : Mat3) : Mat3 :=
  ⟨Vec3.add a.r0 b.r0, Vec3.add a.r1 b.r1, Vec3.add a.r2 b.r2⟩

def Mat3.smulM (c : ℝ) (a : Mat3) : Mat3 :=
  ⟨Vec3.smul c a.r0, Vec3.smul c a.r1, Vec3.smul c a.r2⟩

def Mat3.col0 (m : Mat3) : Vec3 := ⟨m.r0.x, m.r1.x, m.r2.x⟩

def Mat3.col1 (m : Mat3) : Vec3 := ⟨m.r0.y, m.r1.y, m.r2.y⟩

def Mat3.col2 (m : Mat3) : Vec3 := ⟨m.r0.z, m.r1.z, m.r2.z⟩

/-- Matrix product `np.dot(A, B)`. -/
def Mat3.mul (a b : Mat3) : Mat3 :=
  ⟨⟨Vec3.dot a.r0 (Mat3.col0 b), Vec3.dot a.r0 (Mat3.col1 b), Vec3.dot a.r0 (Mat3.col2 b)⟩,
   ⟨Vec3.dot a.r1 (Mat3.col0 b), Vec3.dot a.r1 (Mat3.col1 b), Vec3.dot a.r1 (Mat3.col2 b)⟩,
   ⟨Vec3.dot a.r2 (Mat3.col0 b), Vec3.dot a.r2 (Mat3.col1 b), Vec3.dot a.r2 (Mat3.col2 b)⟩⟩

/-- Matrix-vector product `np.dot(R, v)`. -/
def Mat3.mulVec (m : Mat3) (v : Vec3) : Vec3 :=
  ⟨Vec3.dot m.r0 v, Vec3.dot m.r1 v, Vec3.dot m.r2 v⟩

/-- `np.radians` / `math.radians`. -/
noncomputable def radians (angle_degrees : ℝ) : ℝ := angle_degrees * Real.pi / 180

/-- `_rotation_from_axis_angle(axis, angle_degrees)`: the Rodrigues rotation
matrix `I + sin(θ)·K + (1-cos(θ))·K²` built from the (caller-normalized)
axis; `feature_extraction.py` lines 64-92. -/
noncomputable def _rotation_from_axis_angle (axis : Vec3) (angle_degrees : ℝ) : Mat3 :=
  let angle_rad := radians angle_degrees
  let K : Mat3 := ⟨⟨0, -axis.z, axis.y⟩, ⟨axis.z, 0, -axis.x⟩, ⟨-axis.y, axis.x, 0⟩⟩
  Mat3.addM (Mat3.addM Mat3.identity (Mat3.smulM (Real.sin angle_rad) K))
    (Mat3.smulM (1 - Real.cos angle_rad) (Mat3.mul K K))

/-- `_apply_rotation(rotation, vector)`; lines 95-111. -/
def _apply_rotation (rotation : Mat3) (vector : Vec3) : Vec3 := Mat3.mulVec rotation vector

/-- The axis-normalisation idiom repeated in every extractor:
`axis / (np.linalg.norm(axis) + 1e-10)`. -/
noncomputable def normalizeAxis (axis : Vec3) : Vec3 :=
  Vec3.smul (1 / (Vec3.norm axis + 1 / 10 ^ 10)) axis

/-- The perpendicular-vector idiom of the cylinder/cone/torus extractors:
cross with a first candidate, fall back to a second candidate when the
result is near zero, then normalise (`+ 1e-10` in the denominator). -/
noncomputable def perpUnit (actual_axis cand1 cand2 : Vec3) : Vec3 :=
  let p := Vec3.cross actual_axis cand1
  let p := if Vec3.norm p < 1 / 10 then Vec3.cross actual_axis cand2 else p
  Vec3.smul (1 / (Vec3.norm p + 1 / 10 ^ 10)) p

/-! ## The JCAD data model -/

/-- A `Placement` parameter record: position, rotation axis, angle (degrees). -/
structure Placement where
  Position : Vec3
  Axis : Vec3
  Angle : ℝ

/-- Face-bounds dictionary: the box extractor stores two of the three keys,
the BRep extractors store all three. -/
structure Bounds where
  length : Option ℝ := none
  width : Option ℝ := none
  height : Option ℝ := none

/-- A feature dictionary.  `type` is the `"Feature::…"` tag; the geometric
keys are optional because each feature type populates its own subset.
`startP`/`endP` model the `"start"`/`"end"` keys (`end` is reserved in Lean).
`featureLevel` is the `metadata["featureLevel"]` entry and `hash` the
freshness token injected by `extract_object_features`. -/
structure Feature where
  type : String
  name : String
  featureLevel : String := ""
  position : Option Vec3 := none
  startP : Option Vec3 := none
  endP : Option Vec3 := none
  center : Option Vec3 := none
  normal : Option Vec3 := none
  axis : Option Vec3 := none
  radius : Option ℝ := none
  radius1 : Option ℝ := none
  radius2 : Option ℝ := none
  height : Option ℝ := none
  tube : Option ℝ := none
  startAngle : Option ℝ := none
  endAngle : Option ℝ := none
  bounds : Option Bounds := none
  hash : Option String := none

/-- `IBox` parameter schema. -/
structure IBox where
  Length : ℝ
  Width : ℝ
  Height : ℝ
  Color : String := "#808080"
  Placement : Placement

/-- `ICylinder` parameter schema. -/
structure ICylinder where
  Radius : ℝ
  Height : ℝ
  Angle : ℝ
  Color : String := "#808080"
  Placement : Placement

/-- `ISphere` parameter schema. -/
structure ISphere where
  Radius : ℝ
  Angle1 : ℝ
  Angle2 : ℝ
  Angle3 : ℝ
  Color : String := "#808080"
  Placement : Placement

/-- `ICone` parameter schema. -/
structure ICone where
  Radius1 : ℝ
  Radius2 : ℝ
  Height : ℝ
  Angle : ℝ
  Color : String := "#808080"
  Placement : Placement

/-- `ITorus` parameter schema. -/
structure ITorus where
  Radius1 : ℝ
  Radius2 : ℝ
  Angle1 : ℝ
  Angle2 : ℝ
  Angle3 : ℝ
  Color : String := "#808080"
  Placement : Placement

/-- `ICut` parameter schema: operands referenced by object name. -/
structure ICut where
  Base : String
  Tool : String
  Refine : Bool := false
  Color : String := "#808080"
  Placement : Placement

/-- `IFuse` parameter schema (`Part::MultiFuse`). -/
structure IFuse where
  Shapes : List String
  Refine : Bool := false
  Color : String := "#808080"
  Placement : Placement

/-- `IIntersection` parameter schema (`Part::MultiCommon`). -/
structure IIntersection where
  Shapes : List String
  Refine : Bool := false
  Color : String := "#808080"
  Placement : Placement

/-- `IAny` parameter schema (externally authored geometry); the schema's
`Type` field is called `TypeName` here (`Type` is reserved in Lean). -/
structure IAny where
  Content : String
  TypeName : String
  Placement : Placement

/-- The closed union of shape kind and matching parameter record.  The
source carries `shape` (a `Parts` enum value) and `parameters` separately,
with their correspondence enforced by `OBJECT_FACTORY.create_object`; the
sum type expresses exactly the factory-enforced well-formed combinations. -/
inductive JCadParameters where
  | box : IBox → JCadParameters
  | cylinder : ICylinder → JCadParameters
  | sphere : ISphere → JCadParameters
  | cone : ICone → JCadParameters
  | torus : ITorus → JCadParameters
  | cut : ICut → JCadParameters
  | multiFuse : IFuse → JCadParameters
  | multiCommon : IIntersection → JCadParameters
  | anyShape : IAny → JCadParameters

/-- `obj.shape.value`: the shape-kind string used for all dispatch. -/
def shape_type : JCadParameters → String
  | .box _ => "Part::Box"
  | .cylinder _ => "Part::Cylinder"
  | .sphere _ => "Part::Sphere"
  | .cone _ => "Part::Cone"
  | .torus _ => "Part::Torus"
  | .cut _ => "Part::Cut"
  | .multiFuse _ => "Part::MultiFuse"
  | .multiCommon _ => "Part::MultiCommon"
  | .anyShape _ => "Part::Any"

/-- Every parameter record carries a `Placement` (`hasattr(params, 'Placement')`
holds for all kinds above). -/
def JCadParameters.placement : JCadParameters → Placement
  | .box p => p.Placement
  | .cylinder p => p.Placement
  | .sphere p => p.Placement
  | .cone p => p.Placement
  | .torus p => p.Placement
  | .cut p => p.Placement
  | .multiFuse p => p.Placement
  | .multiCommon p => p.Placement
  | .anyShape p => p.Placement

/-- `PythonJcadObject`: a named document object.  `geometryFeatures` models
the optional cached-features attribute (absent ≡ empty list, matching the
truthiness test `obj.geometryFeatures` in the source). -/
structure PythonJcadObject where
  name : String
  visible : Bool := true
  parameters : JCadParameters
  geometryFeatures : List Feature := []

/-- `CadDocument`: the ordered object list (the `objects` Y-array). -/
structure CadDocument where
  objectsList : List PythonJcadObject

/-- The `objects` property: the names, in document order. -/
def CadDocument.objects (doc : CadDocument) : List String :=
  doc.objectsList.map (fun o => o.name)

/-- `get_object`: first object with the given name, if any. -/
def CadDocument.get_object (doc : CadDocument) (name : String) : Option PythonJcadObject :=
  doc.objectsList.find? (fun o => o.name == name)

/-! ## Extraction options and the level filter -/

/-- `ExtractionMethod` enum. -/
inductive ExtractionMethod where
  | parameter
  | brep
  | cached
  | error
deriving DecidableEq

/-- `ExtractionLevel` enum. -/
inductive ExtractionLevel where
  | full
  | standard
  | minimal
deriving DecidableEq

/-- `_FEATURE_TYPE_SETS`: allowed feature-type set per extraction level
(`feature_extraction.py` lines 141-152). -/
def _FEATURE_TYPE_SETS : ExtractionLevel → List String
  | .full => ["Feature::Point", "Feature::Plane", "Feature::Circle",
              "Feature::Arc", "Feature::Edge", "Feature::Face"]
  | .standard => ["Feature::Circle", "Feature::Arc", "Feature::Plane", "Feature::Point"]
  | .minimal => ["Feature::Circle", "Feature::Plane"]

/-- `ExtractionOptions`. -/
structure ExtractionOptions where
  extraction_level : ExtractionLevel := .standard
  skip_intermediate_objects : Bool := true

/-- `ExtractionOptions.allowed_feature_types`. -/
def allowed_feature_types (opts : ExtractionOptions) : List String :=
  _FEATURE_TYPE_SETS opts.extraction_level

/-- `FeatureExtractionResult`. -/
structure FeatureExtractionResult where
  object_name : String
  features : List Feature
  extraction_method : ExtractionMethod
  hash : String
  errors : List String

/-- `_filter_features` (lines 449-477): keep exactly the features whose
`type` is in the level's allowed set. -/
def _filter_features (opts : ExtractionOptions) (features : List Feature) : List Feature :=
  features.filter (fun feature => (allowed_feature_types opts).contains feature.type)

/-! ## Parameter-path extractors

Each `_extract_*_features` method reads `obj.name` and `obj.parameters`;
here the two projections are passed directly (`objName`, `params`). -/

/-- `np.mean(corners, axis=0)`. -/
noncomputable def vecMean (l : List Vec3) : Vec3 :=
  Vec3.smul (1 / (l.length : ℝ)) (l.foldl Vec3.add ⟨0, 0, 0⟩)

/-- `_extract_box_features` (lines 655-837): 8 corner Points, 12 Edges from
the fixed adjacency table, and per face one Plane plus one Face. -/
noncomputable def _extract_box_features (objName : String) (params : IBox) : List Feature :=
  let length := params.Length
  let width := params.Width
  let height := params.Height
  let position := params.Placement.Position
  let axis_norm := normalizeAxis params.Placement.Axis
  let rotation := _rotation_from_axis_angle axis_norm params.Placement.Angle
  let local_corners : List Vec3 :=
    [⟨-(length / 2), -(width / 2), -(height / 2)⟩,
     ⟨length / 2, -(width / 2), -(height / 2)⟩,
     ⟨length / 2, width / 2, -(height / 2)⟩,
     ⟨-(length / 2), width / 2, -(height / 2)⟩,
     ⟨-(length / 2), -(width / 2), height / 2⟩,
     ⟨length / 2, -(width / 2), height / 2⟩,
     ⟨length / 2, width / 2, height / 2⟩,
     ⟨-(length / 2), width / 2, height / 2⟩]
  let world_corners : List Vec3 :=
    local_corners.map (fun corner => Vec3.add (_apply_rotation rotation corner) position)
  let corner_names : List String :=
    ["bottom_left_back", "bottom_right_back", "bottom_right_front", "bottom_left_front",
     "top_left_back", "top_right_back", "top_right_front", "top_left_front"]
  let corner (i : Nat) : Vec3 := world_corners.getD i ⟨0, 0, 0⟩
  let pointFeatures : List Feature :=
    (world_corners.zip corner_names).map (fun p =>
      { type := "Feature::Point", name := objName ++ "_corner_" ++ p.2,
        featureLevel := "low", position := some p.1 })
  let edge_definitions : List (Nat × Nat × String) :=
    [(0, 1, "bottom_back"), (1, 2, "bottom_right"), (2, 3, "bottom_front"), (3, 0, "bottom_left"),
     (4, 5, "top_back"), (5, 6, "top_right"), (6, 7, "top_front"), (7, 4, "top_left"),
     (0, 4, "left_back"), (1, 5, "right_back"), (2, 6, "right_front"), (3, 7, "left_front")]
  let edgeFeatures : List Feature :=
    edge_definitions.map (fun d =>
      { type := "Feature::Edge", name := objName ++ "_edge_" ++ d.2.2,
        featureLevel := "low", startP := some (corner d.1), endP := some (corner d.2.1) })
  let face_definitions : List (String × List Nat) :=
    [("bottom", [0, 1, 2, 3]), ("top", [7, 6, 5, 4]), ("front", [3, 2, 6, 7]),
     ("back", [1, 0, 4, 5]), ("right", [2, 1, 5, 6]), ("left", [0, 3, 7, 4])]
  let local_normals (face_name : String) : Vec3 :=
    if face_name = "bottom" then ⟨0, 0, -1⟩
    else if face_name = "top" then ⟨0, 0, 1⟩
    else if face_name = "front" then ⟨0, 1, 0⟩
    else if face_name = "back" then ⟨0, -1, 0⟩
    else if face_name = "right" then ⟨1, 0, 0⟩
    else ⟨-1, 0, 0⟩
  let planeFaceFeatures : List Feature :=
    face_definitions.flatMap (fun fd =>
      let world_normal := _apply_rotation rotation (local_normals fd.1)
      let center := vecMean (fd.2.map corner)
      let bounds : Bounds :=
        if fd.1 = "top" ∨ fd.1 = "bottom" then { length := some length, width := some width }
        else if fd.1 = "front" ∨ fd.1 = "back" then { length := some length, height := some height }
        else { width := some width, height := some height }
      [{ type := "Feature::Plane", name := objName ++ "_plane_" ++ fd.1,
         featureLevel := "low", normal := some world_normal, center := some center },
       { type := "Feature::Face", name := objName ++ "_face_" ++ fd.1,
         featureLevel := "low", normal := some world_normal, center := some center,
         bounds := some bounds }])
  pointFeatures ++ edgeFeatures ++ planeFaceFeatures

/-- `_extract_cylinder_features` (lines 839-988): 2 Points, 2 Edges,
2 Circles, 3 Planes (all low-level) and 1 high-level Cylinder. -/
noncomputable def _extract_cylinder_features (objName : String) (params : ICylinder) : List Feature :=
  let radius := params.Radius
  let height := params.Height
  let position := params.Placement.Position
  let axis_norm := normalizeAxis params.Placement.Axis
  let rotation := _rotation_from_axis_angle axis_norm params.Placement.Angle
  let actual_axis := _apply_rotation rotation ⟨0, 1, 0⟩
  let bottom_center := position
  let top_center := Vec3.add bottom_center (Vec3.smul height actual_axis)
  let perp_vec1 := perpUnit actual_axis ⟨1, 0, 0⟩ ⟨0, 0, 1⟩
  let bottom_rim_point := Vec3.add bottom_center (Vec3.smul radius perp_vec1)
  let top_rim_point := Vec3.add top_center (Vec3.smul radius perp_vec1)
  let tangent_center :=
    Vec3.add (Vec3.add bottom_center (Vec3.smul radius perp_vec1))
      (Vec3.smul (height / 2) actual_axis)
  [{ type := "Feature::Point", name := objName ++ "_bottom_center",
     featureLevel := "low", position := some bottom_center },
   { type := "Feature::Point", name := objName ++ "_top_center",
     featureLevel := "low", position := some top_center },
   { type := "Feature::Edge", name := objName ++ "_axis",
     featureLevel := "low", startP := some bottom_center, endP := some top_center },
   { type := "Feature::Edge", name := objName ++ "_surface_edge",
     featureLevel := "low", startP := some bottom_rim_point, endP := some top_rim_point },
   { type := "Feature::Circle", name := objName ++ "_bottom_circle",
     featureLevel := "low", center := some bottom_center, radius := some radius,
     normal := some (Vec3.neg actual_axis) },
   { type := "Feature::Circle", name := objName ++ "_top_circle",
     featureLevel := "low", center := some top_center, radius := some radius,
     normal := some actual_axis },
   { type := "Feature::Plane", name := objName ++ "_top_plane",
     featureLevel := "low", normal := some actual_axis, center := some top_center },
   { type := "Feature::Plane", name := objName ++ "_bottom_plane",
     featureLevel := "low", normal := some (Vec3.neg actual_axis), center := some bottom_center },
   { type := "Feature::Plane", name := objName ++ "_tangent_plane",
     featureLevel := "low", normal := some perp_vec1, center := some tangent_center },
   { type := "Feature::Cylinder", name := objName ++ "_cylinder",
     featureLevel := "high", position := some position, axis := some actual_axis,
     radius := some radius, height := some height }]

/-- `_extract_sphere_features` (lines 990-1093): 2 Points, 1 Edge,
3 Planes (low-level) and 1 high-level Sphere. -/
noncomputable def _extract_sphere_features (objName : String) (params : ISphere) : List Feature :=
  let radius := params.Radius
  let center := params.Placement.Position
  let surface_point := Vec3.add center ⟨radius, 0, 0⟩
  let arc_mid :=
    Vec3.add center
      ⟨radius * Real.cos (Real.pi / 4), radius * Real.sin (Real.pi / 4), 0⟩
  [{ type := "Feature::Point", name := objName ++ "_center",
     featureLevel := "low", position := some center },
   { type := "Feature::Point", name := objName ++ "_surface_point",
     featureLevel := "low", position := some surface_point },
   { type := "Feature::Edge", name := objName ++ "_equatorial_arc",
     featureLevel := "low", startP := some surface_point, endP := some arc_mid },
   { type := "Feature::Plane", name := objName ++ "_equatorial_plane",
     featureLevel := "low", normal := some ⟨0, 0, 1⟩, center := some center },
   { type := "Feature::Plane", name := objName ++ "_meridional_plane_1",
     featureLevel := "low", normal := some ⟨0, 1, 0⟩, center := some center },
   { type := "Feature::Plane", name := objName ++ "_meridional_plane_2",
     featureLevel := "low", normal := some ⟨1, 0, 0⟩, center := some center },
   { type := "Feature::Sphere", name := objName ++ "_sphere",
     featureLevel := "high", center := some center, radius := some radius }]

/-- `_extract_cone_features` (lines 1095-1230): 3 Points, 2 Edges, 2 Planes
(low-level) and 1 high-level Cone. -/
noncomputable def _extract_cone_features (objName : String) (params : ICone) : List Feature :=
  let radius1 := params.Radius1
  let radius2 := params.Radius2
  let height := params.Height
  let position := params.Placement.Position
  let axis_norm := normalizeAxis params.Placement.Axis
  let rotation := _rotation_from_axis_angle axis_norm params.Placement.Angle
  let actual_axis := _apply_rotation rotation ⟨0, 1, 0⟩
  let apex_distance :=
    if |radius1 - radius2| > 1 / 10 ^ 10 then height * radius1 / (radius1 - radius2) else 0
  let bottom_center := position
  let apex_point := Vec3.add bottom_center (Vec3.smul apex_distance actual_axis)
  let perp_vec1 := perpUnit actual_axis ⟨1, 0, 0⟩ ⟨0, 0, 1⟩
  let rim_point := Vec3.add bottom_center (Vec3.smul radius1 perp_vec1)
  let plane_center := Vec3.smul (1 / 2) (Vec3.add bottom_center apex_point)
  [{ type := "Feature::Point", name := objName ++ "_apex",
     featureLevel := "low", position := some apex_point },
   { type := "Feature::Point", name := objName ++ "_bottom_center",
     featureLevel := "low", position := some bottom_center },
   { type := "Feature::Point", name := objName ++ "_rim_point",
     featureLevel := "low", position := some rim_point },
   { type := "Feature::Edge", name := objName ++ "_axis",
     featureLevel := "low", startP := some bottom_center, endP := some apex_point },
   { type := "Feature::Edge", name := objName ++ "_generator",
     featureLevel := "low", startP := some apex_point, endP := some rim_point },
   { type := "Feature::Plane", name := objName ++ "_bottom_plane",
     featureLevel := "low", normal := some (Vec3.neg actual_axis), center := some bottom_center },
   { type := "Feature::Plane", name := objName ++ "_axial_plane",
     featureLevel := "low", normal := some (Vec3.cross actual_axis perp_vec1),
     center := some plane_center },
   { type := "Feature::Cone", name := objName ++ "_cone",
     featureLevel := "high", position := some position, axis := some actual_axis,
     radius1 := some radius1, radius2 := some radius2, height := some height }]

/-- `_extract_torus_features` (lines 1232-1389): 4 Points, 2 Edges, 3 Planes
(low-level) and 1 high-level Torus whose `radius` is `Radius1` and whose
`tube` is `Radius2`. -/
noncomputable def _extract_torus_features (objName : String) (params : ITorus) : List Feature :=
  let radius := params.Radius1
  let tube := params.Radius2
  let position := params.Placement.Position
  let axis_norm := normalizeAxis params.Placement.Axis
  let rotation := _rotation_from_axis_angle axis_norm params.Placement.Angle
  let actual_axis := _apply_rotation rotation ⟨0, 0, 1⟩
  let perp_vec1 := perpUnit actual_axis ⟨1, 0, 0⟩ ⟨0, 1, 0⟩
  let center := position
  let outer_point := Vec3.add center (Vec3.smul (radius + tube) perp_vec1)
  let inner_point := Vec3.add center (Vec3.smul (radius - tube) perp_vec1)
  let top_point := Vec3.add (Vec3.add center (Vec3.smul tube actual_axis)) (Vec3.smul radius perp_vec1)
  let mid_angle_point :=
    Vec3.add (Vec3.add center (Vec3.smul (radius * Real.cos (Real.pi / 4)) perp_vec1))
      (Vec3.smul (radius * Real.sin (Real.pi / 4)) actual_axis)
  let major_start := Vec3.add center (Vec3.smul radius perp_vec1)
  let minor_start := Vec3.add center (Vec3.smul radius perp_vec1)
  let minor_end := Vec3.add (Vec3.add center (Vec3.smul radius perp_vec1)) (Vec3.smul tube actual_axis)
  let perp_vec2 := Vec3.cross actual_axis perp_vec1
  [{ type := "Feature::Point", name := objName ++ "_center",
     featureLevel := "low", position := some center },
   { type := "Feature::Point", name := objName ++ "_outer_point",
     featureLevel := "low", position := some outer_point },
   { type := "Feature::Point", name := objName ++ "_inner_point",
     featureLevel := "low", position := some inner_point },
   { type := "Feature::Point", name := objName ++ "_top_point",
     featureLevel := "low", position := some top_point },
   { type := "Feature::Edge", name := objName ++ "_major_circle_arc",
     featureLevel := "low", startP := some major_start, endP := some mid_angle_point },
   { type := "Feature::Edge", name := objName ++ "_minor_circle_arc",
     featureLevel := "low", startP := some minor_start, endP := some minor_end },
   { type := "Feature::Plane", name := objName ++ "_main_plane",
     featureLevel := "low", normal := some actual_axis, center := some center },
   { type := "Feature::Plane", name := objName ++ "_cross_section_1",
     featureLevel := "low", normal := some perp_vec1, center := some center },
   { type := "Feature::Plane", name := objName ++ "_cross_section_2",
     featureLevel := "low", normal := some perp_vec2, center := some center },
   { type := "Feature::Torus", name := objName ++ "_torus",
     featureLevel := "high", position := some position, axis := some actual_axis,
     radius := some radius, tube := some tube }]

/-- `_extract_from_parameters` (lines 479-513): dispatch on the shape kind;
non-basic kinds fall through with no features (logged warning). -/
noncomputable def _extract_from_parameters (obj : PythonJcadObject) : List Feature :=
  match obj.parameters with
  | .box p => _extract_box_features obj.name p
  | .cylinder p => _extract_cylinder_features obj.name p
  | .sphere p => _extract_sphere_features obj.name p
  | .cone p => _extract_cone_features obj.name p
  | .torus p => _extract_torus_features obj.name p
  | _ => []

/-! ## BRep-path surface extractors

`gp_Torus` as queried by `_extract_torus_from_brep`: location, axis
direction, and the OCC major/minor radii. -/

structure GpTorus where
  location : Vec3
  axisDirection : Vec3
  majorRadius : ℝ
  minorRadius : ℝ

/-- `_extract_torus_from_brep` (lines 1887-1925): one high-level Torus per
toroidal face, `radius` from `MajorRadius()` and `tube` from
`MinorRadius()`. -/
def _extract_torus_from_brep (surface : GpTorus) (obj_name : String) : Feature :=
  { type := "Feature::Torus", name := obj_name ++ "_brep_torus",
    featureLevel := "high",
    position := some surface.location, axis := some surface.axisDirection,
    radius := some surface.majorRadius, tube := some surface.minorRadius }

/-! ## The shape evaluator (`cad_document._reconstruct_occ_shape`) -/

/-- Shapes produced by the external OpenCASCADE kernel, as the free term
algebra over exactly the kernel calls `_reconstruct_occ_shape` makes:
the five `BRepPrimAPI_Make*` constructors (angle arguments already in
radians, as passed), the three `BRepAlgoAPI` boolean results, the
`ShapeUpgrade_UnifySameDomain` refine pass, and the final
`BRepBuilderAPI_Transform` placement application.  `BRepBuilderAPI_Copy`
is the identity on values.  Kernel failures (`IsDone`) are not modelled;
no claim below depends on the success branch of a kernel call. -/
inductive OccShape where
  | makeBox (length width height : ℝ)
  | makeCylinder (radius height angleRad : ℝ)
  | makeSphere (radius angleRad : ℝ)
  | makeCone (radius1 radius2 height angleRad : ℝ)
  | makeTorus (radius1 radius2 angleRad : ℝ)
  | cutShape (base tool : OccShape)
  | fuseShape (a b : OccShape)
  | commonShape (a b : OccShape)
  | refined (s : OccShape)
  | placed (s : OccShape) (placement : Placement)

/-- The shape cache: name → already reconstructed shape (`existing_shapes`
dict / `self._shape_cache`). -/
abbrev ShapeCache : Type := List (String × OccShape)

/-- `existing_shapes.get(name)`. -/
def cacheGet (cache : ShapeCache) (name : String) : Option OccShape :=
  (List.find? (fun p => p.1 == name) cache).map (fun p => p.2)

/-- `_reconstruct_occ_shape(obj, existing_shapes)` (`cad_document.py`
lines 243-377): primitives call the kernel directly; `Part::Cut` requires
both `Base` and `Tool` in the cache; `Part::MultiFuse`/`Part::MultiCommon`
left-fold over the cached operands and require at least two of them; kinds
without a branch (e.g. `Part::Any`) yield no shape.  The object's
`Placement` is applied to whatever shape was produced. -/
noncomputable def _reconstruct_occ_shape (obj : PythonJcadObject) (existing_shapes : ShapeCache) :
    Option OccShape :=
  let occ_shape : Option OccShape :=
    match obj.parameters with
    | .box p => some (.makeBox p.Length p.Width p.Height)
    | .cylinder p => some (.makeCylinder p.Radius p.Height (radians p.Angle))
    | .sphere p => some (.makeSphere p.Radius (radians p.Angle3))
    | .cone p => some (.makeCone p.Radius1 p.Radius2 p.Height (radians p.Angle))
    | .torus p => some (.makeTorus p.Radius1 p.Radius2 (radians p.Angle3))
    | .cut p =>
        match cacheGet existing_shapes p.Base, cacheGet existing_shapes p.Tool with
        | some base, some tool =>
            let res := OccShape.cutShape base tool
            some (if p.Refine then .refined res else res)
        | _, _ => none
    | .multiFuse p =>
        let valid_shapes := p.Shapes.filterMap (cacheGet existing_shapes)
        match valid_shapes with
        | s0 :: s1 :: rest =>
            let res := (s1 :: rest).foldl (fun current next => OccShape.fuseShape current next) s0
            some (if p.Refine then .refined res else res)
        | _ => none
    | .multiCommon p =>
        let valid_shapes := p.Shapes.filterMap (cacheGet existing_shapes)
        match valid_shapes with
        | s0 :: s1 :: rest =>
            let res := (s1 :: rest).foldl (fun current next => OccShape.commonShape current next) s0
            some (if p.Refine then .refined res else res)
        | _ => none
    | .anyShape _ => none
  match occ_shape with
  | some s => some (.placed s (JCadParameters.placement obj.parameters))
  | none => none

/-! ## The feature-extraction service -/

/-- `FeatureExtractionService` state.  `sha256_json` models the external
`json.dumps(..., sort_keys=True, default=str)` plus
`hashlib.sha256(...).hexdigest()` composite applied to the canonical
`(shape, parameters)` data; `occ_analyze` models the external OCC topology
traversal of `_extract_from_brep` (lines 1435-1772), applied to the object
name and the reconstructed shape. -/
structure FeatureExtractionService where
  cad_document : CadDocument
  options : ExtractionOptions
  sha256_json : String × JCadParameters → String
  occ_analyze : String → OccShape → List Feature

/-- `BASIC_SHAPES`. -/
def BASIC_SHAPES : List String :=
  ["Part::Box", "Part::Cylinder", "Part::Sphere", "Part::Cone", "Part::Torus"]

/-- `BOOLEAN_OPERATIONS`. -/
def BOOLEAN_OPERATIONS : List String :=
  ["Part::Cut", "Part::MultiFuse", "Part::MultiCommon"]

/-- `_identify_final_objects` (lines 324-352): visible objects are final;
if none is visible (and the document is non-empty) the last object is. -/
def _identify_final_objects (doc : CadDocument) : List String :=
  let final_objects := doc.objects.filter (fun obj_name =>
    match doc.get_object obj_name with
    | some obj => obj.visible
    | none => false)
  if !doc.objects.isEmpty && final_objects.isEmpty then
    [doc.objects.getLastD ""]
  else final_objects

/-- `_is_intermediate_object` (lines 354-367). -/
def _is_intermediate_object (svc : FeatureExtractionService) (obj_name : String) : Bool :=
  if !svc.options.skip_intermediate_objects then false
  else !((_identify_final_objects svc.cad_document).contains obj_name)

/-- The data `_compute_object_hash` (lines 2025-2052) serialises and
hashes: the shape-kind string and the full parameter record (the
`model_dump()` dict is the parameter record's field map, serialised with
sorted keys — a canonical function of the record). -/
def hashData (obj : PythonJcadObject) : String × JCadParameters :=
  (shape_type obj.parameters, obj.parameters)

/-- `_compute_object_hash`, polymorphic in the digest codomain: the source
instantiates `sha256_dumps` with the external serialise-and-SHA-256
composite (returning a hex string). -/
def _compute_object_hash {D : Type} (sha256_dumps : String × JCadParameters → D)
    (obj : PythonJcadObject) : D :=
  sha256_dumps (hashData obj)

/-- `_extract_from_brep` (lines 1391-1772): reconstruct the shape from the
cache; with no shape, no features; otherwise run the (external) topology
traversal. -/
noncomputable def _extract_from_brep (occ_analyze : String → OccShape → List Feature)
    (obj : PythonJcadObject) (shape_cache : ShapeCache) : List Feature :=
  match _reconstruct_occ_shape obj shape_cache with
  | none => []
  | some occ_shape => occ_analyze obj.name occ_shape

/-- `extract_object_features` (lines 369-447).  Raises (models
`ValueError`) exactly when the name is not in the document; intermediate
objects short-circuit to an empty `parameter` result; a fresh cache
(first stored feature's `hash` equal to the recomputed content hash)
returns the stored features unchanged; otherwise the parameter or BRep
strategy runs, every produced feature is stamped with the content hash,
and the result is filtered by extraction level. -/
noncomputable def extract_object_features (svc : FeatureExtractionService) (shape_cache : ShapeCache)
    (obj_name : String) (force_recompute : Bool) :
    Except String FeatureExtractionResult :=
  match svc.cad_document.get_object obj_name with
  | none => .error ("Object " ++ obj_name ++ " not found")
  | some obj =>
    if _is_intermediate_object svc obj_name then
      .ok { object_name := obj_name, features := [],
            extraction_method := .parameter, hash := "", errors := [] }
    else
      let cachedResult : Option FeatureExtractionResult :=
        if !force_recompute && !obj.geometryFeatures.isEmpty then
          let current_hash := _compute_object_hash svc.sha256_json obj
          let cached_hash :=
            match obj.geometryFeatures with
            | f :: _ => (f.hash).getD ""
            | [] => ""
          if current_hash = cached_hash then
            some { object_name := obj_name, features := obj.geometryFeatures,
                   extraction_method := .cached, hash := current_hash, errors := [] }
          else none
        else none
      match cachedResult with
      | some r => .ok r
      | none =>
        let st := shape_type obj.parameters
        let strat : List Feature × ExtractionMethod :=
          if BASIC_SHAPES.contains st then
            (_extract_from_parameters obj, .parameter)
          else
            (_extract_from_brep svc.occ_analyze obj shape_cache, .brep)
        let content_hash := _compute_object_hash svc.sha256_json obj
        let features := strat.1.map (fun feature => { feature with hash := some content_hash })
        let features := _filter_features svc.options features
        .ok { object_name := obj_name, features := features,
              extraction_method := strat.2, hash := content_hash, errors := [] }

/-- `_build_shape_cache` (lines 295-322): process the names in order,
skipping names already cached or absent; reconstruction failures leave the
cache unchanged. -/
noncomputable def _build_shape_cache (doc : CadDocument) (object_names : List String) : ShapeCache :=
  object_names.foldl (fun cache obj_name =>
    if (cacheGet cache obj_name).isSome then cache
    else
      match doc.get_object obj_name with
      | none => cache
      | some obj =>
        match _reconstruct_occ_shape obj cache with
        | some occ_shape => cache ++ [(obj_name, occ_shape)]
        | none => cache) []

/-- Python-dict insertion: replace the value of an existing key in place,
otherwise append the binding. -/
def dictInsert {R : Type} : List (String × R) → String → R → List (String × R)
  | [], k, v => [(k, v)]
  | p :: rest, k, v => if p.1 = k then (k, v) :: rest else p :: dictInsert rest k v

/-- Python-dict lookup. -/
def dictLookup {R : Type} : List (String × R) → String → Option R
  | [], _ => none
  | p :: rest, k => if p.1 = k then some p.2 else dictLookup rest k

/-- The per-name step of the batch loop: a raised exception becomes an
`error`-tagged result carrying the message. -/
noncomputable def batchResult (svc : FeatureExtractionService) (shape_cache : ShapeCache)
    (force_recompute : Bool) (obj_name : String) : FeatureExtractionResult :=
  match extract_object_features svc shape_cache obj_name force_recompute with
  | .ok result => result
  | .error e =>
      { object_name := obj_name, features := [],
        extraction_method := .error, hash := "", errors := [e] }

/-- `extract_all_features` (lines 256-293): default to all document
objects, pre-populate the shape cache in document order, then collect one
result per name into the results dict, never propagating an exception. -/
noncomputable def extract_all_features (svc : FeatureExtractionService)
    (objects : Option (List String)) (force_recompute : Bool) :
    List (String × FeatureExtractionResult) :=
  let objectNames := objects.getD svc.cad_document.objects
  let shape_cache := _build_shape_cache svc.cad_document objectNames
  objectNames.foldl (fun results obj_name =>
    dictInsert results obj_name (batchResult svc shape_cache force_recompute obj_name)) []

/-! ## Concrete inputs used by witnesses and counterexamples -/

/-- The default placement: origin, Z axis, zero angle. -/
def placementZ : Placement := { Position := ⟨0, 0, 0⟩, Axis := ⟨0, 0, 1⟩, Angle := 0 }

/-- Full-level options. -/
def optionsFull : ExtractionOptions := { extraction_level := .full }

def torusParamsC1 : ITorus :=
  { Radius1 := 5, Radius2 := 1, Angle1 := -180, Angle2 := 180, Angle3 := 360,
    Placement := placementZ }

def torusObjC1 : PythonJcadObject := { name := "t1", parameters := .torus torusParamsC1 }

def docC1 : CadDocument := ⟨[torusObjC1]⟩

/-- A service over `docC1` at full extraction level, with trivial external
digest and topology functions. -/
def svcC1 : FeatureExtractionService :=
  { cad_document := docC1, options := optionsFull,
    sha256_json := fun _ => "h", occ_analyze := fun _ _ => [] }

/-- A bare high-level torus feature. -/
def sampleTorusFeature : Feature := { type := "Feature::Torus", name := "sample_torus" }

def cylinderParamsC3 : ICylinder :=
  { Radius := 2, Height := 10, Angle := 360, Placement := placementZ }

/-! ## General lemmas about the embedded operations -/

theorem Vec3.addZeroRight (v : Vec3) : Vec3.add v ⟨0, 0, 0⟩ = v := by
  obtain ⟨vx, vy, vz⟩ := v
  simp [Vec3.add]

/-- A zero-degree rotation acts as the identity, for every rotation axis. -/
theorem apply_rotation_zero (axis v : Vec3) :
    _apply_rotation (_rotation_from_axis_angle axis 0) v = v := by
  obtain ⟨vx, vy, vz⟩ := v
  simp only [_apply_rotation, _rotation_from_axis_angle, radians, zero_mul, zero_div,
    Real.sin_zero, Real.cos_zero, sub_self, Mat3.mulVec, Mat3.addM, Mat3.smulM, Mat3.mul,
    Mat3.identity, Mat3.col0, Mat3.col1, Mat3.col2, Vec3.add, Vec3.smul, Vec3.dot,
    Vec3.mk.injEq]
  refine ⟨by ring, by ring, by ring⟩

/-- No high-level feature type belongs to any level's allowed set. -/
theorem high_level_not_in_type_sets (lvl : ExtractionLevel) (t : String)
    (h : t = "Feature::Cylinder" ∨ t = "Feature::Sphere" ∨
         t = "Feature::Cone" ∨ t = "Feature::Torus") :
    (_FEATURE_TYPE_SETS lvl).contains t = false := by
  rcases h with h | h | h | h <;> subst h <;> cases lvl <;> rfl

/-! ## Claim C1 -/

/-- Claim C1 (counterexample): for a visible torus object with no cached
features, at the most permissive (`full`) extraction level, the recompute
path of `extract_object_features` produces one high-level
`Feature::Torus` before filtering, yet the returned result contains none:
the level filter removes high-level features at every level, contradicting
the claim that high-level features are never removed by it. -/
theorem C1_counterexample :
    ((extract_object_features svcC1 [] "t1" false).toOption.map
      (fun r => (r.features.filter (fun f => f.type == "Feature::Torus")).length) = some 0) ∧
    ((_extract_from_parameters torusObjC1).filter
      (fun f => f.type == "Feature::Torus")).length = 1 :=
  ⟨rfl, rfl⟩

/-- Claim C1 (amended): the extraction-level filter keeps exactly the
features whose type is in the configured level's allowed set; since no
high-level type (`Feature::Cylinder`, `Feature::Sphere`, `Feature::Cone`,
`Feature::Torus`) is in any allowed set, high-level features are removed
by the filter at every extraction level. -/
theorem C1_filter_keeps_only_allowed (opts : ExtractionOptions)
    (features : List Feature) (f : Feature) :
    (f ∈ _filter_features opts features ↔
      f ∈ features ∧ (allowed_feature_types opts).contains f.type = true) ∧
    ((f.type = "Feature::Cylinder" ∨ f.type = "Feature::Sphere" ∨
      f.type = "Feature::Cone" ∨ f.type = "Feature::Torus") →
      f ∉ _filter_features opts features) := by
  constructor
  · rw [_filter_features, List.mem_filter]
  · intro htype hmem
    rw [_filter_features, List.mem_filter] at hmem
    have hfalse := high_level_not_in_type_sets opts.extraction_level f.type htype
    have h2 := hmem.2
    rw [allowed_feature_types, hfalse] at h2
    exact Bool.noConfusion h2

/-- Witness for the amended C1 statement at a concrete input. -/
theorem C1_filter_keeps_only_allowed_witness :
    sampleTorusFeature ∉ _filter_features optionsFull [sampleTorusFeature] :=
  (C1_filter_keeps_only_allowed optionsFull [sampleTorusFeature] sampleTorusFeature).2
    (Or.inr (Or.inr (Or.inr rfl)))

/-! ## Claim C2 -/

/-- Claim C2: for every torus, the parameter path emits exactly one
high-level `Feature::Torus`, with `radius` equal to `Radius1` and `tube`
equal to `Radius2`; and the BRep path's toroidal-face extractor emits a
single `Feature::Torus` with `radius` from the surface's OCC major radius
and `tube` from its minor radius — never swapped. -/
theorem C2_torus_radius_tube_mapping :
    (∀ (objName : String) (p : ITorus),
      ((_extract_torus_features objName p).filter
          (fun f => f.type == "Feature::Torus")).map (fun f => (f.radius, f.tube)) =
        [(some p.Radius1, some p.Radius2)]) ∧
    (∀ (surface : GpTorus) (obj_name : String),
      (_extract_torus_from_brep surface obj_name).type = "Feature::Torus" ∧
      (_extract_torus_from_brep surface obj_name).radius = some surface.majorRadius ∧
      (_extract_torus_from_brep surface obj_name).tube = some surface.minorRadius) :=
  ⟨fun _ _ => rfl, fun _ _ => ⟨rfl, rfl, rfl⟩⟩

/-! ## Claim C3 -/

/-- Claim C3 (evaluation at the failing input): for the cylinder with
`Radius = 2`, `Height = 10` at the default placement, parameter extraction
produces nine low-level features — 2 `Feature::Point`, 2 `Feature::Edge`,
2 `Feature::Circle`, 3 `Feature::Plane` — not the seven (2 Point, 2 Edge,
3 Plane) asserted by the claim, the function's docstring and the test
`test_cylinder_feature_count`; the high-level part of the claim does hold:
exactly one `Feature::Cylinder` with `radius`/`height` equal to the
parameters. -/
theorem C3_cylinder_low_level_count_is_nine :
    (((_extract_cylinder_features "test_cylinder" cylinderParamsC3).filter
        (fun f => f.featureLevel == "low")).length = 9) ∧
    (((_extract_cylinder_features "test_cylinder" cylinderParamsC3).filter
        (fun f => f.type == "Feature::Point")).length = 2) ∧
    (((_extract_cylinder_features "test_cylinder" cylinderParamsC3).filter
        (fun f => f.type == "Feature::Edge")).length = 2) ∧
    (((_extract_cylinder_features "test_cylinder" cylinderParamsC3).filter
        (fun f => f.type == "Feature::Circle")).length = 2) ∧
    (((_extract_cylinder_features "test_cylinder" cylinderParamsC3).filter
        (fun f => f.type == "Feature::Plane")).length = 3) ∧
    (((_extract_cylinder_features "test_cylinder" cylinderParamsC3).filter
        (fun f => f.type == "Feature::Cylinder")).map
        (fun f => (f.radius, f.height)) = [(some 2, some 10)]) :=
  ⟨rfl, rfl, rfl, rfl, rfl, rfl⟩

/-! ## Claim C8 -/

/-- Claim C8: the content hash is a function of exactly the
`(shapeKind, parameters)` pair.  Stated polymorphically in the digest
codomain of the external serialise-and-SHA-256 composite: (1) objects with
equal parameters (hence equal shape kind — the kind is determined by the
parameter variant) hash equally, whatever their names, visibility, cached
features, or surrounding document; (2) whenever the external digest is
injective on the serialised data (the contract of a cryptographic hash over
a canonical serialisation), changing any parameter changes the hash. -/
theorem C8_hash_function_of_kind_and_parameters
    {D : Type} (sha256_dumps : String × JCadParameters → D)
    (o1 o2 : PythonJcadObject) :
    (o1.parameters = o2.parameters →
      _compute_object_hash sha256_dumps o1 = _compute_object_hash sha256_dumps o2) ∧
    (Function.Injective sha256_dumps → o1.parameters ≠ o2.parameters →
      _compute_object_hash sha256_dumps o1 ≠ _compute_object_hash sha256_dumps o2) := by
  constructor
  · intro h
    simp [_compute_object_hash, hashData, h]
  · intro hinj hne heq
    exact hne (congrArg Prod.snd (hinj heq))

def boxParamsA : IBox := { Length := 1, Width := 1, Height := 1, Placement := placementZ }

def boxParamsB : IBox := { Length := 2, Width := 1, Height := 1, Placement := placementZ }

def hashObjA : PythonJcadObject := { name := "a", parameters := .box boxParamsA }

/-- Same parameters as `hashObjA`, different name and visibility. -/
def hashObjB : PythonJcadObject :=
  { name := "b", visible := false, parameters := .box boxParamsA,
    geometryFeatures := [sampleTorusFeature] }

/-- Same name as `hashObjA`, one mutated parameter. -/
def hashObjC : PythonJcadObject := { name := "a", parameters := .box boxParamsB }

/-- Witness for C8 with the identity digest (injective). -/
theorem C8_hash_witness :
    _compute_object_hash (fun d => d) hashObjA = _compute_object_hash (fun d => d) hashObjB ∧
    _compute_object_hash (fun d => d) hashObjA ≠ _compute_object_hash (fun d => d) hashObjC :=
  ⟨(C8_hash_function_of_kind_and_parameters (fun d => d) hashObjA hashObjB).1 rfl,
   (C8_hash_function_of_kind_and_parameters (fun d => d) hashObjA hashObjC).2
     (fun _ _ h => h)
     (by norm_num [hashObjA, hashObjC, boxParamsA, boxParamsB])⟩

/-! ## Claim C5 -/

/-- Claim C5: boolean shape resolution yields a shape only when its
operands are in the shape cache — for `Part::Cut` both `Base` and `Tool`,
for `Part::MultiFuse` / `Part::MultiCommon` at least two resolved
operands; with a missing operand, resolution yields `none` and BRep
feature extraction returns the empty feature list (and, being total,
raises nothing). -/
theorem C5_boolean_requires_cached_operands
    (obj : PythonJcadObject) (cache : ShapeCache)
    (occ_analyze : String → OccShape → List Feature) :
    (∀ p, obj.parameters = .cut p →
      ((cacheGet cache p.Base = none ∨ cacheGet cache p.Tool = none) →
        _reconstruct_occ_shape obj cache = none ∧
        _extract_from_brep occ_analyze obj cache = []) ∧
      (_reconstruct_occ_shape obj cache ≠ none →
        (∃ b, cacheGet cache p.Base = some b) ∧ (∃ t, cacheGet cache p.Tool = some t))) ∧
    (∀ p, obj.parameters = .multiFuse p →
      ((p.Shapes.filterMap (cacheGet cache)).length < 2 →
        _reconstruct_occ_shape obj cache = none ∧
        _extract_from_brep occ_analyze obj cache = []) ∧
      (_reconstruct_occ_shape obj cache ≠ none →
        2 ≤ (p.Shapes.filterMap (cacheGet cache)).length)) ∧
    (∀ p, obj.parameters = .multiCommon p →
      ((p.Shapes.filterMap (cacheGet cache)).length < 2 →
        _reconstruct_occ_shape obj cache = none ∧
        _extract_from_brep occ_analyze obj cache = []) ∧
      (_reconstruct_occ_shape obj cache ≠ none →
        2 ≤ (p.Shapes.filterMap (cacheGet cache)).length)) := by
  refine ⟨?_, ?_, ?_⟩
  · intro p hp
    constructor
    · intro hmiss
      have hrec : _reconstruct_occ_shape obj cache = none := by
        rcases hB : cacheGet cache p.Base with _ | b
        · simp [_reconstruct_occ_shape, hp, hB]
        · rcases hT : cacheGet cache p.Tool with _ | t
          · simp [_reconstruct_occ_shape, hp, hB, hT]
          · rcases hmiss with h | h
            · rw [hB] at h; exact absurd h (by simp)
            · rw [hT] at h; exact absurd h (by simp)
      exact ⟨hrec, by simp [_extract_from_brep, hrec]⟩
    · intro hne
      rcases hB : cacheGet cache p.Base with _ | b
      · exact absurd (by simp [_reconstruct_occ_shape, hp, hB]) hne
      · rcases hT : cacheGet cache p.Tool with _ | t
        · exact absurd (by simp [_reconstruct_occ_shape, hp, hB, hT]) hne
        · exact ⟨⟨b, rfl⟩, ⟨t, rfl⟩⟩
  · intro p hp
    constructor
    · intro hlen
      have hrec : _reconstruct_occ_shape obj cache = none := by
        rcases hv : p.Shapes.filterMap (cacheGet cache) with _ | ⟨s0, _ | ⟨s1, rest⟩⟩
        · simp [_reconstruct_occ_shape, hp, hv]
        · simp [_reconstruct_occ_shape, hp, hv]
        · rw [hv] at hlen; simp at hlen; omega
      exact ⟨hrec, by simp [_extract_from_brep, hrec]⟩
    · intro hne
      rcases hv : p.Shapes.filterMap (cacheGet cache) with _ | ⟨s0, _ | ⟨s1, rest⟩⟩
      · exact absurd (by simp [_reconstruct_occ_shape, hp, hv]) hne
      · exact absurd (by simp [_reconstruct_occ_shape, hp, hv]) hne
      · simp only [List.length_cons]; omega
  · intro p hp
    constructor
    · intro hlen
      have hrec : _reconstruct_occ_shape obj cache = none := by
        rcases hv : p.Shapes.filterMap (cacheGet cache) with _ | ⟨s0, _ | ⟨s1, rest⟩⟩
        · simp [_reconstruct_occ_shape, hp, hv]
        · simp [_reconstruct_occ_shape, hp, hv]
        · rw [hv] at hlen; simp at hlen; omega
      exact ⟨hrec, by simp [_extract_from_brep, hrec]⟩
    · intro hne
      rcases hv : p.Shapes.filterMap (cacheGet cache) with _ | ⟨s0, _ | ⟨s1, rest⟩⟩
      · exact absurd (by simp [_reconstruct_occ_shape, hp, hv]) hne
      · exact absurd (by simp [_reconstruct_occ_shape, hp, hv]) hne
      · simp only [List.length_cons]; omega

def cutParamsW : ICut := { Base := "b1", Tool := "t1", Placement := placementZ }

def cutObjW : PythonJcadObject := { name := "cut1", parameters := .cut cutParamsW }

/-- Witness for C5: a `Part::Cut` whose operands are not cached resolves
to no shape and yields no BRep features. -/
theorem C5_witness :
    _reconstruct_occ_shape cutObjW [] = none ∧
    _extract_from_brep (fun _ _ => []) cutObjW [] = [] :=
  ((C5_boolean_requires_cached_operands cutObjW [] (fun _ _ => [])).1 cutParamsW rfl).1
    (Or.inl rfl)

/-! ## Claim C9 -/

theorem get_object_name_mem {doc : CadDocument} {n : String} {o : PythonJcadObject}
    (h : doc.get_object n = some o) : n ∈ doc.objects := by
  rw [CadDocument.get_object] at h
  have hmem := List.mem_of_find?_eq_some h
  have hname := List.find?_some h
  rw [CadDocument.objects]
  refine List.mem_map.2 ⟨o, hmem, ?_⟩
  simpa using hname

/-- The visibility predicate of `_identify_final_objects`, characterised. -/
theorem finalPred_iff (doc : CadDocument) (n : String) :
    (match doc.get_object n with
      | some obj => obj.visible
      | none => false) = true ↔ ∃ o, doc.get_object n = some o ∧ o.visible = true := by
  cases h : doc.get_object n with
  | none => simp
  | some o => simp

/-- Membership in `_identify_final_objects`: final iff visible, with the
last object as fallback when nothing is visible. -/
theorem mem_identify_final_iff (doc : CadDocument) (n : String) :
    n ∈ _identify_final_objects doc ↔
      ((∃ o, doc.get_object n = some o ∧ o.visible = true) ∨
       ((∀ m o, doc.get_object m = some o → o.visible = false) ∧
        doc.objects ≠ [] ∧ n = doc.objects.getLastD "")) := by
  rw [_identify_final_objects]
  by_cases hcond : (!doc.objects.isEmpty &&
      (doc.objects.filter (fun obj_name =>
        match doc.get_object obj_name with
        | some obj => obj.visible
        | none => false)).isEmpty) = true
  · rw [if_pos hcond]
    rw [Bool.and_eq_true] at hcond
    obtain ⟨hne, hemp⟩ := hcond
    rw [Bool.not_eq_eq_eq_not, Bool.not_true, List.isEmpty_eq_false] at hne
    rw [List.isEmpty_iff] at hemp
    have noVisible : ∀ m o, doc.get_object m = some o → o.visible = false := by
      intro m o hmo
      by_contra hvis
      rw [Bool.not_eq_false] at hvis
      have hmF : m ∈ doc.objects.filter (fun obj_name =>
          match doc.get_object obj_name with
          | some obj => obj.visible
          | none => false) :=
        List.mem_filter.2 ⟨get_object_name_mem hmo, by rw [hmo]; exact hvis⟩
      rw [hemp] at hmF
      exact absurd hmF (List.not_mem_nil m)
    constructor
    · intro hmem
      exact Or.inr ⟨noVisible, hne, by simpa using hmem⟩
    · rintro (⟨o, ho, hv⟩ | ⟨_, _, hlast⟩)
      · rw [noVisible n o ho] at hv
        exact Bool.noConfusion hv
      · simp [hlast]
  · rw [if_neg hcond]
    rw [Bool.and_eq_true, not_and] at hcond
    constructor
    · intro hmem
      have := List.mem_filter.1 hmem
      exact Or.inl ((finalPred_iff doc n).1 this.2)
    · rintro (⟨o, ho, hv⟩ | ⟨noVis, hne, _⟩)
      · exact List.mem_filter.2 ⟨get_object_name_mem ho,
          (finalPred_iff doc n).2 ⟨o, ho, hv⟩⟩
      · exfalso
        have hF : doc.objects.filter (fun obj_name =>
            match doc.get_object obj_name with
            | some obj => obj.visible
            | none => false) = [] := by
          rw [List.filter_eq_nil_iff]
          intro m hm
          cases hg : doc.get_object m with
          | none => simp
          | some o => simp [noVis m o hg]
        have hne2 : (!doc.objects.isEmpty) = true := by
          rw [Bool.not_eq_eq_eq_not, Bool.not_true, List.isEmpty_eq_false]
          exact hne
        have := hcond hne2
        rw [hF] at this
        exact this rfl

/-- Claim C9: with intermediate skipping enabled, `extract_object_features`
on an existing object outside the final set short-circuits — before any
cache check or extraction, for every shape kind — to an empty feature
list, method `parameter`, empty hash and empty errors; and the final set
is exactly the visible objects, with the last object as fallback when no
object is visible. -/
theorem C9_intermediate_short_circuit
    (svc : FeatureExtractionService) (shape_cache : ShapeCache) (obj_name : String)
    (force_recompute : Bool) (obj : PythonJcadObject)
    (hskip : svc.options.skip_intermediate_objects = true)
    (hobj : svc.cad_document.get_object obj_name = some obj)
    (hfin : obj_name ∉ _identify_final_objects svc.cad_document) :
    extract_object_features svc shape_cache obj_name force_recompute =
      .ok { object_name := obj_name, features := [], extraction_method := .parameter,
            hash := "", errors := [] } ∧
    (∀ n, n ∈ _identify_final_objects svc.cad_document ↔
      ((∃ o, svc.cad_document.get_object n = some o ∧ o.visible = true) ∨
       ((∀ m o, svc.cad_document.get_object m = some o → o.visible = false) ∧
        svc.cad_document.objects ≠ [] ∧
        n = svc.cad_document.objects.getLastD ""))) := by
  constructor
  · have hcontains : (_identify_final_objects svc.cad_document).contains obj_name = false := by
      cases hc : (_identify_final_objects svc.cad_document).contains obj_name
      · rfl
      · exact absurd (List.mem_of_elem_eq_true hc) hfin
    have hint : _is_intermediate_object svc obj_name = true := by
      simp only [_is_intermediate_object]
      rw [hskip, hcontains]
      rfl
    simp [extract_object_features, hobj, hint]
  · exact fun n => mem_identify_final_iff svc.cad_document n

def boxObjHidden : PythonJcadObject :=
  { name := "hidden", visible := false, parameters := .box boxParamsA }

def boxObjShown : PythonJcadObject := { name := "shown", parameters := .box boxParamsA }

def docC9 : CadDocument := ⟨[boxObjHidden, boxObjShown]⟩

def svcC9 : FeatureExtractionService :=
  { cad_document := docC9, options := {}, sha256_json := fun _ => "h",
    occ_analyze := fun _ _ => [] }

/-- Witness for C9: the hidden object short-circuits to the empty
`parameter` result. -/
theorem C9_witness :
    extract_object_features svcC9 [] "hidden" false =
      .ok { object_name := "hidden", features := [], extraction_method := .parameter,
            hash := "", errors := [] } :=
  (C9_intermediate_short_circuit svcC9 [] "hidden" false boxObjHidden rfl rfl
    (by decide)).1

/-! ## Claims C7 and C10: the cached path -/

/-- The cached branch of `extract_object_features`: when the first stored
feature's hash equals the recomputed content hash, the stored features are
returned verbatim under the `cached` tag. -/
theorem extract_cached_of_hash_match
    (svc : FeatureExtractionService) (shape_cache : ShapeCache) (name : String)
    (obj : PythonJcadObject) (f : Feature) (fs : List Feature)
    (hobj : svc.cad_document.get_object name = some obj)
    (hint : _is_intermediate_object svc name = false)
    (hfeat : obj.geometryFeatures = f :: fs)
    (hhash : (f.hash).getD "" = _compute_object_hash svc.sha256_json obj) :
    extract_object_features svc shape_cache name false =
      .ok { object_name := name, features := f :: fs, extraction_method := .cached,
            hash := _compute_object_hash svc.sha256_json obj, errors := [] } := by
  simp [extract_object_features, hobj, hint, hfeat, hhash]

/-- The recompute branch when the first stored feature's hash mismatches:
the strategy dispatch runs and tags the result `parameter` or `brep`. -/
theorem extract_recompute_of_hash_mismatch
    (svc : FeatureExtractionService) (shape_cache : ShapeCache) (name : String)
    (obj : PythonJcadObject) (f : Feature) (fs : List Feature)
    (hobj : svc.cad_document.get_object name = some obj)
    (hint : _is_intermediate_object svc name = false)
    (hfeat : obj.geometryFeatures = f :: fs)
    (hhash : (f.hash).getD "" ≠ _compute_object_hash svc.sha256_json obj) :
    ∃ r, extract_object_features svc shape_cache name false = .ok r ∧
      (r.extraction_method = .parameter ∨ r.extraction_method = .brep) := by
  simp only [extract_object_features, hobj, hint, Bool.false_eq_true, if_false,
    Bool.not_false, Bool.true_and, hfeat, List.isEmpty_cons, Bool.not_false]
  rw [if_neg (Ne.symm hhash)]
  refine ⟨_, rfl, ?_⟩
  by_cases hb : shape_type obj.parameters ∈ BASIC_SHAPES <;> simp [hb]

/-- The recompute branch when no features are cached. -/
theorem extract_recompute_of_no_cache
    (svc : FeatureExtractionService) (shape_cache : ShapeCache) (name : String)
    (obj : PythonJcadObject)
    (hobj : svc.cad_document.get_object name = some obj)
    (hint : _is_intermediate_object svc name = false)
    (hfeat : obj.geometryFeatures = []) :
    ∃ r, extract_object_features svc shape_cache name false = .ok r ∧
      (r.extraction_method = .parameter ∨ r.extraction_method = .brep) := by
  simp only [extract_object_features, hobj, hint, Bool.false_eq_true, if_false, hfeat,
    List.isEmpty_nil, Bool.not_true, Bool.and_false]
  refine ⟨_, rfl, ?_⟩
  by_cases hb : shape_type obj.parameters ∈ BASIC_SHAPES <;> simp [hb]

/-- Claim C7: for a non-intermediate object with `force_recompute = false`,
a stored cache whose first feature's hash equals the freshly computed
content hash of the `(shapeKind, parameters)` pair yields a `cached`-tagged
result whose feature list is exactly the stored list (the write-back of the
first extraction); a hash mismatch or an absent cache forces recomputation
(`parameter`/`brep`-tagged). -/
theorem C7_cached_result_freshness
    (svc : FeatureExtractionService) (shape_cache : ShapeCache) (name : String)
    (obj : PythonJcadObject)
    (hobj : svc.cad_document.get_object name = some obj)
    (hint : _is_intermediate_object svc name = false) :
    (∀ f fs, obj.geometryFeatures = f :: fs →
      (f.hash).getD "" = _compute_object_hash svc.sha256_json obj →
      extract_object_features svc shape_cache name false =
        .ok { object_name := name, features := f :: fs, extraction_method := .cached,
              hash := _compute_object_hash svc.sha256_json obj, errors := [] }) ∧
    (∀ f fs, obj.geometryFeatures = f :: fs →
      (f.hash).getD "" ≠ _compute_object_hash svc.sha256_json obj →
      ∃ r, extract_object_features svc shape_cache name false = .ok r ∧
        (r.extraction_method = .parameter ∨ r.extraction_method = .brep)) ∧
    (obj.geometryFeatures = [] →
      ∃ r, extract_object_features svc shape_cache name false = .ok r ∧
        (r.extraction_method = .parameter ∨ r.extraction_method = .brep)) :=
  ⟨fun f fs hfeat hhash =>
      extract_cached_of_hash_match svc shape_cache name obj f fs hobj hint hfeat hhash,
   fun f fs hfeat hhash =>
      extract_recompute_of_hash_mismatch svc shape_cache name obj f fs hobj hint hfeat hhash,
   fun hfeat => extract_recompute_of_no_cache svc shape_cache name obj hobj hint hfeat⟩

def cachedPointFeature : Feature :=
  { type := "Feature::Point", name := "bx_p", hash := some "h" }

def boxObjCached : PythonJcadObject :=
  { name := "bx", parameters := .box boxParamsA, geometryFeatures := [cachedPointFeature] }

def docC7 : CadDocument := ⟨[boxObjCached]⟩

def svcC7 : FeatureExtractionService :=
  { cad_document := docC7, options := {}, sha256_json := fun _ => "h",
    occ_analyze := fun _ _ => [] }

/-- Witness for C7: a fresh cache returns the stored feature verbatim. -/
theorem C7_cached_result_freshness_witness :
    extract_object_features svcC7 [] "bx" false =
      .ok { object_name := "bx", features := [cachedPointFeature],
            extraction_method := .cached, hash := "h", errors := [] } :=
  (C7_cached_result_freshness svcC7 [] "bx" boxObjCached rfl rfl).1
    cachedPointFeature [] rfl rfl

/-- Claim C10: a `cached`-tagged result returns the stored feature list
verbatim, judged fresh solely by comparing the content hash against the
`hash` field of the first stored feature; the configured extraction level
plays no role, so stored features whose types are outside the current
level's allowed set are still returned. -/
theorem C10_cached_ignores_extraction_level
    (doc : CadDocument) (sha : String × JCadParameters → String)
    (analyze : String → OccShape → List Feature) (skip : Bool)
    (shape_cache : ShapeCache) (name : String) (obj : PythonJcadObject)
    (f : Feature) (fs : List Feature)
    (hobj : doc.get_object name = some obj)
    (hfinal : (_identify_final_objects doc).contains name = true)
    (hfeat : obj.geometryFeatures = f :: fs)
    (hhash : (f.hash).getD "" = _compute_object_hash sha obj) :
    ∀ level : ExtractionLevel,
      extract_object_features
        { cad_document := doc,
          options := { extraction_level := level, skip_intermediate_objects := skip },
          sha256_json := sha, occ_analyze := analyze }
        shape_cache name false =
      .ok { object_name := name, features := f :: fs, extraction_method := .cached,
            hash := _compute_object_hash sha obj, errors := [] } := by
  intro level
  have hint : _is_intermediate_object
      { cad_document := doc,
        options := { extraction_level := level, skip_intermediate_objects := skip },
        sha256_json := sha, occ_analyze := analyze } name = false := by
    simp only [_is_intermediate_object]
    cases skip
    · rfl
    · show (!(_identify_final_objects doc).contains name) = false
      rw [hfinal]
      rfl
  exact extract_cached_of_hash_match _ shape_cache name obj f fs hobj hint hfeat hhash

def cachedEdgeFeature : Feature :=
  { type := "Feature::Edge", name := "bx_e", hash := some "h" }

def boxObjCachedEdge : PythonJcadObject :=
  { name := "bx", parameters := .box boxParamsA, geometryFeatures := [cachedEdgeFeature] }

def docC10 : CadDocument := ⟨[boxObjCachedEdge]⟩

/-- Witness for C10: at `minimal` level (which does not allow
`Feature::Edge`) a fresh cache still returns the stored edge feature. -/
theorem C10_cached_ignores_extraction_level_witness :
    extract_object_features
      { cad_document := docC10,
        options := { extraction_level := .minimal, skip_intermediate_objects := true },
        sha256_json := fun _ => "h", occ_analyze := fun _ _ => [] }
      [] "bx" false =
    .ok { object_name := "bx", features := [cachedEdgeFeature],
          extraction_method := .cached, hash := "h", errors := [] } :=
  C10_cached_ignores_extraction_level docC10 (fun _ => "h") (fun _ _ => []) true
    [] "bx" boxObjCachedEdge cachedEdgeFeature [] rfl rfl rfl rfl .minimal

/-! ## Claim C6: per-object raising vs batch error capture -/

theorem extract_error_of_not_found
    (svc : FeatureExtractionService) (shape_cache : ShapeCache) (name : String)
    (force_recompute : Bool) (h : svc.cad_document.get_object name = none) :
    extract_object_features svc shape_cache name force_recompute =
      .error ("Object " ++ name ++ " not found") := by
  simp [extract_object_features, h]

theorem extract_ok_of_found
    (svc : FeatureExtractionService) (shape_cache : ShapeCache) (name : String)
    (obj : PythonJcadObject) (force_recompute : Bool)
    (h : svc.cad_document.get_object name = some obj) :
    ∃ r, extract_object_features svc shape_cache name force_recompute = .ok r := by
  simp only [extract_object_features, h]
  by_cases hi : _is_intermediate_object svc name = true
  · rw [if_pos hi]
    exact ⟨_, rfl⟩
  · rw [if_neg hi]
    split
    · exact ⟨_, rfl⟩
    · exact ⟨_, rfl⟩

theorem dictLookup_dictInsert {R : Type} (d : List (String × R)) (k n : String) (v : R) :
    dictLookup (dictInsert d k v) n = if n = k then some v else dictLookup d n := by
  induction d with
  | nil =>
    simp only [dictInsert, dictLookup]
    by_cases h : n = k
    · subst h
      simp
    · rw [if_neg (fun hh => h hh.symm), if_neg h]
  | cons p rest ih =>
    simp only [dictInsert]
    by_cases hp : p.1 = k
    · rw [if_pos hp]
      simp only [dictLookup]
      by_cases hn : n = k
      · subst hn
        rw [if_pos rfl, if_pos rfl]
      · rw [if_neg (fun hh => hn hh.symm), if_neg hn,
          if_neg (fun hh => hn (hp ▸ hh).symm)]
    · rw [if_neg hp]
      simp only [dictLookup, ih]
      by_cases hpn : p.1 = n
      · rw [if_pos hpn, if_neg (fun hh => hp (hpn.trans hh)), if_pos hpn]
      · rw [if_neg hpn, if_neg hpn]

theorem dictLookup_foldl_dictInsert {R : Type} (f : String → R) (names : List String)
    (acc : List (String × R)) (n : String) :
    dictLookup (names.foldl (fun res k => dictInsert res k (f k)) acc) n =
      if n ∈ names then some (f n) else dictLookup acc n := by
  induction names generalizing acc with
  | nil => simp
  | cons k ks ih =>
    rw [List.foldl_cons, ih (dictInsert acc k (f k))]
    by_cases hn : n ∈ ks
    · rw [if_pos hn, if_pos (List.mem_cons_of_mem k hn)]
    · rw [if_neg hn, dictLookup_dictInsert]
      by_cases hk : n = k
      · subst hk
        rw [if_pos rfl, if_pos (List.mem_cons_self n ks)]
      · rw [if_neg hk, if_neg (by simp [List.mem_cons, hk, hn])]

theorem map_fst_dictInsert {R : Type} (d : List (String × R)) (k : String) (v : R) :
    (dictInsert d k v).map Prod.fst =
      if k ∈ d.map Prod.fst then d.map Prod.fst else d.map Prod.fst ++ [k] := by
  induction d with
  | nil => simp [dictInsert]
  | cons p rest ih =>
    simp only [dictInsert]
    by_cases hp : p.1 = k
    · rw [if_pos hp]
      simp [hp]
    · rw [if_neg hp]
      simp only [List.map_cons, ih]
      by_cases hk : k ∈ rest.map Prod.fst
      · rw [if_pos hk, if_pos (List.mem_cons_of_mem _ hk)]
      · rw [if_neg hk,
          if_neg (by
            simp only [List.mem_cons, not_or]
            exact ⟨fun hh => hp hh.symm, hk⟩),
          List.cons_append]

theorem nodup_map_fst_foldl {R : Type} (f : String → R) (names : List String)
    (acc : List (String × R)) (hacc : (acc.map Prod.fst).Nodup) :
    ((names.foldl (fun res k => dictInsert res k (f k)) acc).map Prod.fst).Nodup := by
  induction names generalizing acc with
  | nil => exact hacc
  | cons k ks ih =>
    rw [List.foldl_cons]
    refine ih _ ?_
    rw [map_fst_dictInsert]
    by_cases hk : k ∈ acc.map Prod.fst
    · rw [if_pos hk]
      exact hacc
    · rw [if_neg hk]
      rw [List.nodup_append]
      exact ⟨hacc, List.nodup_singleton k, by simp [hk]⟩

theorem mem_dictInsert {R : Type} {e : String × R} {d : List (String × R)}
    {k : String} {v : R} (h : e ∈ dictInsert d k v) : e = (k, v) ∨ e ∈ d := by
  induction d with
  | nil => simpa [dictInsert] using h
  | cons p rest ih =>
    simp only [dictInsert] at h
    by_cases hp : p.1 = k
    · rw [if_pos hp] at h
      rcases List.mem_cons.1 h with h1 | h1
      · exact Or.inl h1
      · exact Or.inr (List.mem_cons_of_mem _ h1)
    · rw [if_neg hp] at h
      rcases List.mem_cons.1 h with h1 | h1
      · exact Or.inr (by simp [h1])
      · rcases ih h1 with h2 | h2
        · exact Or.inl h2
        · exact Or.inr (List.mem_cons_of_mem _ h2)

theorem mem_foldl_dictInsert {R : Type} (f : String → R) (names : List String)
    (acc : List (String × R)) (e : String × R)
    (h : e ∈ names.foldl (fun res k => dictInsert res k (f k)) acc) :
    e.1 ∈ names ∨ e ∈ acc := by
  induction names generalizing acc with
  | nil => exact Or.inr h
  | cons k ks ih =>
    rw [List.foldl_cons] at h
    rcases ih _ h with h1 | h1
    · exact Or.inl (List.mem_cons_of_mem _ h1)
    · rcases mem_dictInsert h1 with h2 | h2
      · exact Or.inl (by simp [h2])
      · exact Or.inr h2

/-- Claim C6: per-object extraction raises exactly when the name is absent
from the document (and always returns `ok` when it is present); batch
extraction never propagates an exception, returns exactly one result per
requested name, tags unknown names `error` with a non-empty errors list,
and existing names get exactly the per-object result (siblings are
unaffected by an unknown name in the same batch). -/
theorem C6_unknown_object_handling
    (svc : FeatureExtractionService) (shape_cache : ShapeCache) (force_recompute : Bool) :
    (∀ name, svc.cad_document.get_object name = none →
      extract_object_features svc shape_cache name force_recompute =
        .error ("Object " ++ name ++ " not found")) ∧
    (∀ name obj, svc.cad_document.get_object name = some obj →
      ∃ r, extract_object_features svc shape_cache name force_recompute = .ok r) ∧
    (∀ names : List String,
      ((extract_all_features svc (some names) force_recompute).map Prod.fst).Nodup ∧
      (∀ e, e ∈ extract_all_features svc (some names) force_recompute → e.1 ∈ names) ∧
      (∀ n, n ∈ names →
        dictLookup (extract_all_features svc (some names) force_recompute) n =
          some (batchResult svc (_build_shape_cache svc.cad_document names)
                  force_recompute n)) ∧
      (∀ n, n ∈ names → svc.cad_document.get_object n = none →
        (batchResult svc (_build_shape_cache svc.cad_document names)
            force_recompute n).extraction_method = .error ∧
        (batchResult svc (_build_shape_cache svc.cad_document names)
            force_recompute n).errors ≠ []) ∧
      (∀ n obj, n ∈ names → svc.cad_document.get_object n = some obj →
        Except.ok (batchResult svc (_build_shape_cache svc.cad_document names)
            force_recompute n) =
          extract_object_features svc (_build_shape_cache svc.cad_document names)
            n force_recompute)) := by
  refine ⟨fun name h => extract_error_of_not_found svc shape_cache name force_recompute h,
    fun name obj h => extract_ok_of_found svc shape_cache name obj force_recompute h,
    fun names => ?_⟩
  have hlookup : ∀ n,
      dictLookup (extract_all_features svc (some names) force_recompute) n =
        if n ∈ names then
          some (batchResult svc (_build_shape_cache svc.cad_document names)
                  force_recompute n)
        else none := by
    intro n
    simpa [extract_all_features] using
      dictLookup_foldl_dictInsert
        (batchResult svc (_build_shape_cache svc.cad_document names) force_recompute)
        names [] n
  refine ⟨?_, ?_, ?_, ?_, ?_⟩
  · simp only [extract_all_features]
    exact nodup_map_fst_foldl _ names [] (by simp)
  · intro e he
    simp only [extract_all_features] at he
    rcases mem_foldl_dictInsert _ names [] e he with h | h
    · exact h
    · exact absurd h (List.not_mem_nil e)
  · intro n hn
    rw [hlookup n, if_pos hn]
  · intro n _ hnone
    have herr := extract_error_of_not_found svc
      (_build_shape_cache svc.cad_document names) n force_recompute hnone
    constructor
    · simp [batchResult, herr]
    · simp [batchResult, herr]
  · intro n obj _ hobj
    obtain ⟨r, hr⟩ := extract_ok_of_found svc
      (_build_shape_cache svc.cad_document names) n obj force_recompute hobj
    rw [batchResult, hr]

def docC6 : CadDocument := ⟨[boxObjShown]⟩

def svcC6 : FeatureExtractionService :=
  { cad_document := docC6, options := {}, sha256_json := fun _ => "h",
    occ_analyze := fun _ _ => [] }

/-- Witness for C6: the unknown name raises per-object and is captured in
the batch as a looked-up result. -/
theorem C6_unknown_object_handling_witness :
    extract_object_features svcC6 [] "ghost" false =
      .error ("Object " ++ "ghost" ++ " not found") ∧
    dictLookup (extract_all_features svcC6 (some ["shown", "ghost"]) false) "ghost" =
      some (batchResult svcC6 (_build_shape_cache svcC6.cad_document ["shown", "ghost"])
              false "ghost") :=
  ⟨(C6_unknown_object_handling svcC6 [] false).1 "ghost" rfl,
   ((C6_unknown_object_handling svcC6 [] false).2.2 ["shown", "ghost"]).2.2.1 "ghost"
     (by simp)⟩

/-! ## Claim C4: box extraction under identity placement -/

/-- The 8 sign combinations of `(±L/2, ±W/2, ±H/2)`, in the source's
corner order. -/
noncomputable def boxCorners (L W H : ℝ) : List Vec3 :=
  [⟨-(L / 2), -(W / 2), -(H / 2)⟩, ⟨L / 2, -(W / 2), -(H / 2)⟩,
   ⟨L / 2, W / 2, -(H / 2)⟩, ⟨-(L / 2), W / 2, -(H / 2)⟩,
   ⟨-(L / 2), -(W / 2), H / 2⟩, ⟨L / 2, -(W / 2), H / 2⟩,
   ⟨L / 2, W / 2, H / 2⟩, ⟨-(L / 2), W / 2, H / 2⟩]

/-- The source's corner-index pairs of the 12 box edges. -/
def boxEdgeIdx : List (Nat × Nat) :=
  [(0, 1), (1, 2), (2, 3), (3, 0), (4, 5), (5, 6), (6, 7), (7, 4),
   (0, 4), (1, 5), (2, 6), (3, 7)]

theorem getD_mem {α : Type} (l : List α) (n : Nat) (d : α) (h : n < l.length) :
    l.getD n d ∈ l := by
  induction l generalizing n with
  | nil => exact absurd h (by simp)
  | cons a t ih =>
    cases n with
    | zero => exact List.mem_cons_self a t
    | succ m =>
      exact List.mem_cons_of_mem a (ih m (by simpa using h))

/-- Claim C4: for a box with positive dimensions at identity placement,
parameter extraction yields exactly 8 `Feature::Point`, 12 `Feature::Edge`,
6 `Feature::Plane` and 6 `Feature::Face` features; the corner Point
positions are exactly the 8 combinations of `(±L/2, ±W/2, ±H/2)` (in
source order); and every edge's start and end are corners of that set,
never equal to each other. -/
theorem C4_box_identity_placement
    (objName : String) (p : IBox)
    (hL : 0 < p.Length) (hW : 0 < p.Width) (hH : 0 < p.Height)
    (hpos : p.Placement.Position = ⟨0, 0, 0⟩)
    (hang : p.Placement.Angle = 0) :
    (((_extract_box_features objName p).filter
        (fun f => f.type == "Feature::Point")).length = 8 ∧
     ((_extract_box_features objName p).filter
        (fun f => f.type == "Feature::Edge")).length = 12 ∧
     ((_extract_box_features objName p).filter
        (fun f => f.type == "Feature::Plane")).length = 6 ∧
     ((_extract_box_features objName p).filter
        (fun f => f.type == "Feature::Face")).length = 6) ∧
    (((_extract_box_features objName p).filter
        (fun f => f.type == "Feature::Point")).map (fun f => f.position) =
      (boxCorners p.Length p.Width p.Height).map some) ∧
    (∀ f, f ∈ _extract_box_features objName p → f.type = "Feature::Edge" →
      f.startP ∈ (boxCorners p.Length p.Width p.Height).map some ∧
      f.endP ∈ (boxCorners p.Length p.Width p.Height).map some ∧
      f.startP ≠ f.endP) := by
  have hrot : ∀ v : Vec3,
      Vec3.add (_apply_rotation (_rotation_from_axis_angle
        (normalizeAxis p.Placement.Axis) p.Placement.Angle) v)
        p.Placement.Position = v := by
    intro v
    rw [hang, hpos, apply_rotation_zero, Vec3.addZeroRight]
  refine ⟨⟨rfl, rfl, rfl, rfl⟩, ?_, ?_⟩
  · have h0 : ((_extract_box_features objName p).filter
        (fun f => f.type == "Feature::Point")).map (fun f => f.position) =
      (boxCorners p.Length p.Width p.Height).map (fun c =>
        some (Vec3.add (_apply_rotation (_rotation_from_axis_angle
          (normalizeAxis p.Placement.Axis) p.Placement.Angle) c)
          p.Placement.Position)) := rfl
    rw [h0]
    simp only [hrot]
  · have h1 : ((_extract_box_features objName p).filter
        (fun f => f.type == "Feature::Edge")).map (fun f => (f.startP, f.endP)) =
      boxEdgeIdx.map (fun d =>
        (some (Vec3.add (_apply_rotation (_rotation_from_axis_angle
            (normalizeAxis p.Placement.Axis) p.Placement.Angle)
            ((boxCorners p.Length p.Width p.Height).getD d.1 ⟨0, 0, 0⟩))
            p.Placement.Position),
         some (Vec3.add (_apply_rotation (_rotation_from_axis_angle
            (normalizeAxis p.Placement.Axis) p.Placement.Angle)
            ((boxCorners p.Length p.Width p.Height).getD d.2 ⟨0, 0, 0⟩))
            p.Placement.Position))) := rfl
    simp only [hrot] at h1
    have hLne : -(p.Length / 2) ≠ p.Length / 2 := by
      intro hcontra
      have : p.Length = 0 := by linarith
      exact absurd this (ne_of_gt hL)
    have hWne : -(p.Width / 2) ≠ p.Width / 2 := by
      intro hcontra
      have : p.Width = 0 := by linarith
      exact absurd this (ne_of_gt hW)
    have hHne : -(p.Height / 2) ≠ p.Height / 2 := by
      intro hcontra
      have : p.Height = 0 := by linarith
      exact absurd this (ne_of_gt hH)
    intro f hf hedge
    have hpair : (fun f => (f.startP, f.endP)) f ∈
        boxEdgeIdx.map (fun d =>
          (some ((boxCorners p.Length p.Width p.Height).getD d.1 ⟨0, 0, 0⟩),
           some ((boxCorners p.Length p.Width p.Height).getD d.2 ⟨0, 0, 0⟩))) := by
      rw [← h1]
      exact List.mem_map_of_mem _ (List.mem_filter.2 ⟨hf, by rw [hedge]; rfl⟩)
    obtain ⟨d, hd, heq⟩ := List.mem_map.1 hpair
    simp only [boxEdgeIdx, List.mem_cons, List.not_mem_nil, or_false] at hd
    rcases hd with rfl | rfl | rfl | rfl | rfl | rfl | rfl | rfl | rfl | rfl | rfl | rfl <;>
      (dsimp only at heq
       rw [Prod.ext_iff] at heq
       obtain ⟨hs, he⟩ := heq
       dsimp only at hs he
       rw [← hs, ← he]
       refine ⟨List.mem_map_of_mem some (getD_mem _ _ _ (by simp [boxCorners])),
         List.mem_map_of_mem some (getD_mem _ _ _ (by simp [boxCorners])), ?_⟩
       intro h
       have hxyz := Option.some.inj h
       first
         | exact hLne (congrArg Vec3.x hxyz)
         | exact hLne (congrArg Vec3.x hxyz).symm
         | exact hWne (congrArg Vec3.y hxyz)
         | exact hWne (congrArg Vec3.y hxyz).symm
         | exact hHne (congrArg Vec3.z hxyz))

def boxParamsC4 : IBox := { Length := 10, Width := 8, Height := 5, Placement := placementZ }

/-- Witness for C4: the `Box(10, 8, 5)` example at the origin. -/
theorem C4_box_identity_placement_witness :
    ((_extract_box_features "box" boxParamsC4).filter
        (fun f => f.type == "Feature::Point")).map (fun f => f.position) =
      (boxCorners 10 8 5).map some :=
  (C4_box_identity_placement "box" boxParamsC4 (by norm_num [boxParamsC4])
    (by norm_num [boxParamsC4]) (by norm_num [boxParamsC4]) rfl rfl).2.1

end JupyterCadProof
